import Mathlib

/-!
Shallow embedding of the ICAHT dashboard core (src/utils/data_processor.py and
src/utils/icaht_grader.py) together with theorems checking the written
specification against it.

Modelling conventions:
- Calendar dates are integers counting days from an arbitrary epoch; a pandas
  NaT is Option.none.
- ANC values (pandas float64) are modelled as exact rationals; a NaN is
  Option.none.
- DataFrames are lists of typed records, in row order.  A DataFrame built from
  an empty list of records has no columns, so selecting a column from it raises
  KeyError; that failure mode is modelled with Except.
- Python integer arithmetic is Int arithmetic (no overflow).
-/

/-- A raw observation row, after the date/numeric coercion performed at the
top of DataProcessor.prepare_data (errors=coerce turns bad cells into NaT/NaN,
modelled by none). -/
structure RawRow where
  patient_id : String
  cart_date : Option Int
  date : Option Int
  anc : Option ℚ
  last_fu_date : Option Int
  subsequent_therapy_date : Option Int
  progression_date : Option Int
  deriving Repr, DecidableEq

/-- The settings dict passed to prepare_data; each recognized key may be
present or absent. -/
structure Settings where
  early_days : Option Int := none
  late_days : Option Int := none
  max_gap_days : Option Nat := none
  recovery_days : Option Int := none
  anc_threshold_500 : Option Int := none
  anc_threshold_100 : Option Int := none
  deriving Repr, DecidableEq

/-- settings.get with its default, as read in _prepare_early_data. -/
def earlyDaysVal (s : Settings) : Int := s.early_days.getD 30

/-- settings.get with its default, as read in _interpolate_anc_values. -/
def maxGapVal (s : Settings) : Nat := s.max_gap_days.getD 7

/-- A row of the early-window frame after the groupby aggregation in
_prepare_early_data (columns patient_id, time_post_inf, cart_date, date, anc,
last_fu_date). -/
structure EarlyRow where
  patient_id : String
  time_post_inf : Int
  cart_date : Option Int
  date : Option Int
  anc : Option ℚ
  last_fu_date : Option Int
  deriving Repr, DecidableEq

/-- A row of the early-window frame after interpolation: the previous columns
plus anc_interpolated (nullable Int64) and anc_final (float). -/
structure FinalRow where
  patient_id : String
  time_post_inf : Int
  cart_date : Option Int
  date : Option Int
  anc : Option ℚ
  last_fu_date : Option Int
  anc_interpolated : Option Int
  anc_final : Option ℚ
  deriving Repr, DecidableEq

/-- A row of the prepared late-window frame (columns patient_id,
time_post_inf, cart_date, date, anc, end_date). -/
structure LateRow where
  patient_id : String
  time_post_inf : Int
  cart_date : Option Int
  date : Option Int
  anc : Option ℚ
  end_date : Option Int
  deriving Repr, DecidableEq

/-- The exceedance dicts built by ICahtGrader._calculate_exceedances. -/
structure Exceedance where
  start_day : Int
  start_date : Option Int
  end_day : Int
  end_date : Option Int
  duration : Int
  deriving Repr, DecidableEq

/-- One record of the DataFrame returned by grade_early_icaht. -/
structure EarlyResult where
  patient_id : String
  duration_below_500_max : Int
  duration_below_100_max : Int
  early_icaht_grade : String
  grade_4_special : Bool
  exceedances_500 : Nat
  exceedances_100 : Nat
  deriving Repr, DecidableEq

/-- One record of the DataFrame returned by grade_late_icaht. -/
structure LateResult where
  patient_id : String
  anc_1 : Option ℚ
  anc_2 : Option ℚ
  late_icaht_grade : String
  anc_count : Nat
  deriving Repr, DecidableEq

/-- One record of the DataFrame returned by combine_grades. -/
structure CombinedResult where
  patient_id : String
  early_icaht_grade : String
  duration_below_500_max : Int
  duration_below_100_max : Int
  grade_4_special : Bool
  late_icaht_grade : String
  anc_1 : Option ℚ
  anc_2 : Option ℚ
  anc_count : Nat
  deriving Repr, DecidableEq

/-! ### Constants of ICahtGrader.__init__ (hard-coded, not read from settings) -/

/-- self.anc_500_threshold; the source stores 501 so that a strict < detects
values at or below 500. -/
def anc_500_threshold : Int := 501

/-- self.anc_100_threshold. -/
def anc_100_threshold : Int := 101

/-- self.recovery_days. -/
def recovery_days : Int := 3

/-! ### Generic list helpers mirroring pandas operations -/

/-- Helper of uniqueFirst: keep the elements not seen before. -/
def uniqueFirstGo {α : Type} [DecidableEq α] (seen : List α) : List α → List α
  | [] => []
  | x :: xs => if x ∈ seen then uniqueFirstGo seen xs else x :: uniqueFirstGo (x :: seen) xs

/-- Order-of-appearance deduplication: pandas Series.unique. -/
def uniqueFirst {α : Type} [DecidableEq α] (l : List α) : List α := uniqueFirstGo [] l

/-- Insert into a list sorted by a boolean comparator (stable). -/
def insSorted {α : Type} (le : α → α → Bool) (a : α) : List α → List α
  | [] => [a]
  | b :: bs => if le a b then a :: b :: bs else b :: insSorted le a bs

/-- Stable insertion sort by a boolean comparator; models
DataFrame.sort_values and sorted groupby keys. -/
def sortByB {α : Type} (le : α → α → Bool) : List α → List α
  | [] => []
  | a :: as => insSorted le a (sortByB le as)

/-- python max(list, default=d). -/
def listMax (l : List Int) (d : Int) : Int :=
  match l with
  | [] => d
  | x :: xs => xs.foldl max x

/-- First non-null entry of a column in a group: pandas GroupBy agg "first". -/
def firstNonNull {α : Type} (l : List (Option α)) : Option α :=
  match l with
  | [] => none
  | none :: rest => firstNonNull rest
  | some a :: _ => some a

/-- Minimum of the present values among optional cells (skipna): pandas min,
both the GroupBy agg "min" of a column and the row-wise min(axis=1); none when
every value is absent. -/
def minSkipNA {α : Type} [LinearOrder α] (l : List (Option α)) : Option α :=
  l.foldl (fun acc v =>
    match acc, v with
    | none, v => v
    | some a, none => some a
    | some a, some b => some (min a b)) none

/-! ### ICahtGrader._calculate_exceedances -/

/-- The per-row condition anc_final < threshold (below=True).  Rows with
absent anc_final never satisfy it (NaN comparisons are False, and the
condition is reindexed over the non-null rows with fill_value=False). -/
def belowThreshold (threshold : Int) (r : FinalRow) : Bool :=
  match r.anc_final with
  | none => false
  | some v => v < (threshold : ℚ)

/-- The two-state scan over the non-null rows: open an exceedance on entering,
extend it while the condition holds, close it on leaving, and close a pending
one at the end of the data. -/
def scanExceedances (threshold : Int) : List FinalRow → Option Exceedance → List Exceedance
  | [], cur =>
      match cur with
      | some e => [e]
      | none => []
  | r :: rest, cur =>
      match cur, belowThreshold threshold r with
      | none, true =>
          scanExceedances threshold rest
            (some { start_day := r.time_post_inf, start_date := r.date,
                    end_day := r.time_post_inf, end_date := r.date, duration := 1 })
      | some e, true =>
          scanExceedances threshold rest
            (some { e with end_day := r.time_post_inf, end_date := r.date,
                           duration := r.time_post_inf - e.start_day + 1 })
      | some e, false => e :: scanExceedances threshold rest none
      | none, false => scanExceedances threshold rest none

/-- Body of the merge loop in _join_adjacent_exceedances: cur is the current
accumulator, the list holds the remaining intervals. -/
def joinGo (cur : Exceedance) : List Exceedance → List Exceedance
  | [] => [cur]
  | next :: rest =>
      if next.start_day - cur.end_day - 1 ≤ recovery_days - 1 then
        joinGo { cur with end_day := next.end_day, end_date := next.end_date,
                          duration := next.end_day - cur.start_day + 1 } rest
      else
        cur :: joinGo next rest

/-- ICahtGrader._join_adjacent_exceedances. -/
def joinAdjacentExceedances (excs : List Exceedance) : List Exceedance :=
  match excs with
  | [] => []
  | [e] => [e]
  | e :: rest => joinGo e rest

/-- ICahtGrader._calculate_exceedances (below=True as in both call sites):
drop the rows with absent anc_final, run the two-state scan, then merge
adjacent intervals. -/
def calculateExceedances (patient_data : List FinalRow) (threshold : Int) : List Exceedance :=
  let valid_data := patient_data.filter (fun r => r.anc_final.isSome)
  joinAdjacentExceedances (scanExceedances threshold valid_data none)

/-- ICahtGrader._check_grade_4_special_cases.  The none branch of the last
valid row is unreachable at the call site, because the exceedances are
computed from the same non-null rows. -/
def checkGrade4SpecialCases (patient_data : List FinalRow) (exceedances_500 : List Exceedance) : Bool :=
  if exceedances_500.isEmpty then false
  else
    match (patient_data.filter (fun r => r.anc_final.isSome)).getLast? with
    | none => false
    | some last_day_data =>
        exceedances_500.any (fun e =>
          decide (e.start_day ≤ 3) && (e.end_day == last_day_data.time_post_inf))

/-- ICahtGrader._assign_early_grade.  Durations are integer valued, so python
range membership is the pair of bounds. -/
def assignEarlyGrade (duration_500 duration_100 : Int) (grade_4_special : Bool) : String :=
  if grade_4_special then "Grade 4"
  else if duration_500 = 0 ∧ duration_100 = 0 then "Grade 0"
  else if (1 ≤ duration_500 ∧ duration_500 < 7) ∧ duration_100 < 7 then "Grade 1"
  else if (7 ≤ duration_500 ∧ duration_500 < 14) ∧ duration_100 < 7 then "Grade 2"
  else if ((14 ≤ duration_500 ∧ duration_500 < 31) ∧ duration_100 < 7) ∨
          (duration_500 < 31 ∧ (7 ≤ duration_100 ∧ duration_100 < 14)) then "Grade 3"
  else if 31 ≤ duration_500 ∨ 14 ≤ duration_100 then "Grade 4"
  else "Grade 0"

/-- python float membership in range(lo, hi): true exactly when the value is a
whole number lying in [lo, hi). -/
def inPyRange (x : ℚ) (lo hi : Int) : Bool :=
  x.den == 1 && decide (lo ≤ x.num) && decide (x.num < hi)

/-- pandas isna on an optional scalar. -/
def isNA {α : Type} (x : Option α) : Bool := x.isNone

/-- Comparison of an optional float with a constant; a NaN comparison is
False. -/
def optLE (x : Option ℚ) (b : ℚ) : Bool :=
  match x with
  | none => false
  | some v => v ≤ b

/-- ICahtGrader._assign_late_grade, with the disjuncts kept exactly as in the
source. -/
def assignLateGrade (anc_1 anc_2 : Option ℚ) : String :=
  match anc_1 with
  | none => "Grade 0"
  | some a1 =>
      if (inPyRange a1 1001 1501 && (isNA anc_2 || optLE anc_2 1500)) ||
         (inPyRange a1 1001 1501 && isNA anc_2) then "Grade 1"
      else if (inPyRange a1 501 1001 && (isNA anc_2 || optLE anc_2 1500)) ||
              (inPyRange a1 501 1001 && isNA anc_2) then "Grade 2"
      else if (inPyRange a1 101 501 && (isNA anc_2 || optLE anc_2 1500)) ||
              (inPyRange a1 101 501 && isNA anc_2) then "Grade 3"
      else if a1 ≤ 100 then "Grade 4"
      else "Grade 0"

/-! ### ICahtGrader.grade_early_icaht / grade_late_icaht -/

/-- Comparator for DataFrame.sort_values on time_post_inf (stable). -/
def rowLE (a b : FinalRow) : Bool := a.time_post_inf ≤ b.time_post_inf

/-- The body of the patient loop of grade_early_icaht: select the rows of one
patient, sort them by day, and grade them. -/
def gradeEarlyPatient (patient_id : String) (rows : List FinalRow) : EarlyResult :=
  let patient_data := sortByB rowLE (rows.filter (fun r => r.patient_id == patient_id))
  let exceedances_500 := calculateExceedances patient_data anc_500_threshold
  let exceedances_100 := calculateExceedances patient_data anc_100_threshold
  let max_duration_500 := listMax (exceedances_500.map (·.duration)) 0
  let max_duration_100 := listMax (exceedances_100.map (·.duration)) 0
  let grade_4_special := checkGrade4SpecialCases patient_data exceedances_500
  { patient_id := patient_id,
    duration_below_500_max := max_duration_500,
    duration_below_100_max := max_duration_100,
    early_icaht_grade := assignEarlyGrade max_duration_500 max_duration_100 grade_4_special,
    grade_4_special := grade_4_special,
    exceedances_500 := exceedances_500.length,
    exceedances_100 := exceedances_100.length }

/-- ICahtGrader.grade_early_icaht: one result per distinct patient_id, in
order of first appearance. -/
def gradeEarlyIcaht (df_early : List FinalRow) : List EarlyResult :=
  (uniqueFirst (df_early.map (·.patient_id))).map (fun pid => gradeEarlyPatient pid df_early)

/-- Ascending sort of the present ANC values of one late-window patient:
dropna followed by sort_values. -/
def sortedAncValues (rows : List LateRow) : List ℚ :=
  sortByB (fun a b => a ≤ b) (rows.filterMap (·.anc))

/-- The body of the patient loop of grade_late_icaht.  The branch for an
empty patient frame is unreachable (the ids are drawn from the same frame);
the record it builds in the source lacks the anc_count key, modelled here
as count 0. -/
def gradeLatePatient (patient_id : String) (rows : List LateRow) : LateResult :=
  let patient_data := rows.filter (fun r => r.patient_id == patient_id)
  if patient_data.isEmpty then
    { patient_id := patient_id, anc_1 := none, anc_2 := none,
      late_icaht_grade := "Grade 0", anc_count := 0 }
  else
    let anc_values := sortedAncValues patient_data
    let anc_1 := anc_values.get? 0
    let anc_2 := anc_values.get? 1
    { patient_id := patient_id, anc_1 := anc_1, anc_2 := anc_2,
      late_icaht_grade := assignLateGrade anc_1 anc_2, anc_count := anc_values.length }

/-- ICahtGrader.grade_late_icaht. -/
def gradeLateIcaht (df_late : List LateRow) : List LateResult :=
  (uniqueFirst (df_late.map (·.patient_id))).map (fun pid => gradeLatePatient pid df_late)

/-! ### ICahtGrader.combine_grades

The source reads the patient_id column of both result frames and iterates
over the python set of the ids.  Two consequences are modelled explicitly:

- a result frame built from an empty list of records has no patient_id
  column, so the column access raises KeyError (modelled with Except.error);
- the iteration order of a python set of strings is not a function of its
  contents (string hashing is salted per process), so combine_grades is
  modelled as a function of the enumeration order actually used; an order is
  admissible for a run when it enumerates the union of the ids exactly once.
-/

/-- Build the combined record of one patient: defaults for a side whose
result frame has no row for the patient. -/
def combineOne (early_grades : List EarlyResult) (late_grades : List LateResult)
    (patient_id : String) : CombinedResult :=
  let early_data := (early_grades.filter (fun r => r.patient_id == patient_id)).head?
  let late_data := (late_grades.filter (fun r => r.patient_id == patient_id)).head?
  { patient_id := patient_id,
    early_icaht_grade := match early_data with
      | some e => e.early_icaht_grade
      | none => "Grade 0",
    duration_below_500_max := match early_data with
      | some e => e.duration_below_500_max
      | none => 0,
    duration_below_100_max := match early_data with
      | some e => e.duration_below_100_max
      | none => 0,
    grade_4_special := match early_data with
      | some e => e.grade_4_special
      | none => false,
    late_icaht_grade := match late_data with
      | some l => l.late_icaht_grade
      | none => "Grade 0",
    anc_1 := match late_data with
      | some l => l.anc_1
      | none => none,
    anc_2 := match late_data with
      | some l => l.anc_2
      | none => none,
    anc_count := match late_data with
      | some l => l.anc_count
      | none => 0 }

/-- ICahtGrader.combine_grades, relative to the set enumeration order of the
run.  Reading the patient_id column of an empty frame raises KeyError. -/
def combineGrades (early_grades : List EarlyResult) (late_grades : List LateResult)
    (order : List String) : Except String (List CombinedResult) :=
  if early_grades.isEmpty then Except.error "KeyError: patient_id"
  else if late_grades.isEmpty then Except.error "KeyError: patient_id"
  else Except.ok (order.map (combineOne early_grades late_grades))

/-- An enumeration order a python set over the patient ids of the two result
frames can produce: each distinct id exactly once, in some order. -/
def admissibleOrder (early_grades : List EarlyResult) (late_grades : List LateResult)
    (order : List String) : Prop :=
  order.Perm (uniqueFirst (early_grades.map (·.patient_id) ++ late_grades.map (·.patient_id)))

/-! ### ICahtGrader.generate_summary -/

/-- Data-quality record of _assess_data_quality. -/
structure Quality where
  patients_with_data : Nat
  interpolation_rate : ℚ
  deriving Repr, DecidableEq

/-- Round half to even, the rounding of numpy and of python round, computed
on the numerator and denominator: with q = n/d (d > 0), the floor is
fdiv n d and the fractional part r = (n - floor*d)/d is compared with 1/2 by
cross multiplication. -/
def roundHalfEven (q : ℚ) : Int :=
  let d : Int := (q.den : Int)
  let f : Int := Int.fdiv q.num d
  let rnum : Int := q.num - f * d
  if 2 * rnum < d then f
  else if d < 2 * rnum then f + 1
  else if f % 2 = 0 then f else f + 1

/-- numpy round to a given number of decimals applied to a scalar. -/
def roundToDecimals (q : ℚ) (decimals : Nat) : ℚ :=
  (roundHalfEven (q * (10 : ℚ) ^ decimals) : ℚ) / (10 : ℚ) ^ decimals

/-- ICahtGrader._assess_data_quality on the early frame (which has an
anc_final column). -/
def assessDataQualityEarly (df : List FinalRow) : Quality :=
  if df.isEmpty then { patients_with_data := 0, interpolation_rate := 0 }
  else
    let total_values : ℚ := df.length
    let interpolated_values : ℚ := (df.filter (fun r => r.anc_final.isNone)).length
    { patients_with_data := (uniqueFirst (df.map (·.patient_id))).length,
      interpolation_rate := roundToDecimals (interpolated_values / total_values * 100) 2 }

/-- ICahtGrader._assess_data_quality on the late frame: that frame has no
anc_final column, so a non-empty frame raises KeyError; the empty frame
returns the zero record before touching the column. -/
def assessDataQualityLate (df : List LateRow) : Option Quality :=
  if df.isEmpty then some { patients_with_data := 0, interpolation_rate := 0 }
  else none

/-- The summary record of generate_summary.  The two value_counts dicts are
modelled by their mapping from grade label to frequency. -/
structure Summary where
  total_patients : Nat
  early_icaht_distribution : String → Nat
  late_icaht_distribution : String → Nat
  grade_4_special_cases : Nat
  data_quality_early : Quality
  data_quality_late : Quality

/-- ICahtGrader.generate_summary.  none models the KeyError raised when the
final frame is empty (no grade columns) or the late frame is non-empty (no
anc_final column). -/
def generateSummary (final_grades : List CombinedResult) (early_frame : List FinalRow)
    (late_frame : List LateRow) : Option Summary :=
  if final_grades.isEmpty then none
  else
    match assessDataQualityLate late_frame with
    | none => none
    | some ql =>
        some { total_patients := final_grades.length,
               early_icaht_distribution := fun g =>
                 (final_grades.map (·.early_icaht_grade)).count g,
               late_icaht_distribution := fun g =>
                 (final_grades.map (·.late_icaht_grade)).count g,
               grade_4_special_cases := (final_grades.filter (fun r => r.grade_4_special)).length,
               data_quality_early := assessDataQualityEarly early_frame,
               data_quality_late := ql }

/-! ### DataProcessor (src/utils/data_processor.py) -/

/-- Day offset: (date - cart_date).dt.days; NaT arithmetic yields NaN. -/
def timePostInf (r : RawRow) : Option Int :=
  match r.date, r.cart_date with
  | some d, some c => some (d - c)
  | _, _ => none

/-- The per-row end date of _prepare_late_data: the row-wise minimum over the
four columns cart_date, subsequent_therapy_date, progression_date and
last_fu_date (note that the baseline date is part of the minimum), filled
with cart_date + 100 days where that minimum is absent (the fill value is
itself NaT when cart_date is absent). -/
def codeLateEndDate (r : RawRow) : Option Int :=
  match minSkipNA [r.cart_date, r.subsequent_therapy_date, r.progression_date, r.last_fu_date] with
  | some v => some v
  | none => r.cart_date.map (· + 100)

/-- Modelled from the spec: the end date for the late window is the earliest
of subsequent-therapy date, progression date and last-follow-up date,
defaulting to baseline + 100 days when all three are absent. -/
def specLateEndDate (r : RawRow) : Option Int :=
  match minSkipNA [r.subsequent_therapy_date, r.progression_date, r.last_fu_date] with
  | some v => some v
  | none => r.cart_date.map (· + 100)

/-- The late-window row filter: time_post_inf >= 31 and date <= end_date,
with NaN/NaT comparisons evaluating to False. -/
def keepLate (r : RawRow) : Bool :=
  match timePostInf r with
  | none => false
  | some t =>
      decide (31 ≤ t) &&
      (match r.date, codeLateEndDate r with
       | some d, some e => decide (d ≤ e)
       | _, _ => false)

/-- Lexicographic order on the groupby keys (patient_id, time_post_inf);
pandas emits the groups in sorted key order. -/
def keyLE (a b : String × Int) : Bool :=
  match compare a.1 b.1 with
  | Ordering.lt => true
  | Ordering.gt => false
  | Ordering.eq => a.2 ≤ b.2

/-- The groupby keys of a filtered frame: distinct (patient_id,
time_post_inf) pairs in sorted order.  Rows that passed the filters carry a
present day offset, so the default of getD is unreachable. -/
def groupKeys (kept : List RawRow) : List (String × Int) :=
  sortByB keyLE (uniqueFirst (kept.map (fun r => (r.patient_id, (timePostInf r).getD 0))))

/-- _prepare_late_data: add the day offset and end date, filter to the late
period, then aggregate duplicates of a (patient, day) to the minimum ANC with
first non-null values for the other columns. -/
def prepareLateData (df : List RawRow) (settings : Settings) : List LateRow :=
  let kept := df.filter keepLate
  (groupKeys kept).map (fun k =>
    let grp := kept.filter (fun r => r.patient_id == k.1 && (timePostInf r).getD 0 == k.2)
    { patient_id := k.1, time_post_inf := k.2,
      cart_date := firstNonNull (grp.map (·.cart_date)),
      date := firstNonNull (grp.map (·.date)),
      anc := minSkipNA (grp.map (·.anc)),
      end_date := firstNonNull (grp.map codeLateEndDate) })

/-- The early-window row filter: 0 <= time_post_inf <= max_days. -/
def keepEarly (max_days : Int) (r : RawRow) : Bool :=
  match timePostInf r with
  | none => false
  | some t => decide (0 ≤ t) && decide (t ≤ max_days)

/-- The groupby aggregation of _prepare_early_data. -/
def groupEarly (kept : List RawRow) : List EarlyRow :=
  (groupKeys kept).map (fun k =>
    let grp := kept.filter (fun r => r.patient_id == k.1 && (timePostInf r).getD 0 == k.2)
    { patient_id := k.1, time_post_inf := k.2,
      cart_date := firstNonNull (grp.map (·.cart_date)),
      date := firstNonNull (grp.map (·.date)),
      anc := minSkipNA (grp.map (·.anc)),
      last_fu_date := firstNonNull (grp.map (·.last_fu_date)) })

/-- DataProcessor._create_complete_timeseries: per patient, emit one row per
day from 0 to the follow-up horizon, reusing the observed row of that day
when present.  The two none branches are unreachable: the patient ids come
from the same frame, and every row of the grouped early frame has a present
baseline date (its day offset was computed from it). -/
def createCompleteTimeseries (df : List EarlyRow) (max_days : Int) : List EarlyRow :=
  (uniqueFirst (df.map (·.patient_id))).flatMap (fun pid =>
    let patient_data := df.filter (fun r => r.patient_id == pid)
    match patient_data.head? with
    | none => []
    | some h =>
        match h.cart_date with
        | none => []
        | some cart =>
            let follow_up_days : Int :=
              match h.last_fu_date with
              | none => max_days
              | some fu => min max_days (fu - cart)
            (List.range (follow_up_days + 1).toNat).map (fun dnat =>
              let day : Int := dnat
              match (patient_data.filter (fun r => r.time_post_inf == day)).head? with
              | some row => row
              | none => { patient_id := pid, cart_date := some cart, date := some (cart + day),
                          time_post_inf := day, anc := none, last_fu_date := h.last_fu_date }))

/-! ### DataProcessor._interpolate_anc_values

pandas Series.interpolate(method=linear, limit=max_gap,
limit_direction=both) computes the linear interpolation of every missing
position from the nearest present values (numpy interp, which clamps to the
boundary value outside the known range) and then keeps a filled value only
where the missing position is within limit positions of a present value on
at least one side; runs farther than limit from every present value stay
missing.  The result is rounded to the nearest multiple of 10 (numpy half to
even) and cast to nullable integers, and anc_final takes the raw value where
present, else the interpolated one. -/

/-- Whether position j of the column holds a present value. -/
def isValidAt (xs : List (Option ℚ)) (j : Nat) : Bool := (xs.getD j none).isSome

/-- The value at a present position (0 as unreachable default). -/
def valueAt (xs : List (Option ℚ)) (j : Nat) : ℚ := (xs.getD j none).getD 0

/-- Nearest present position strictly before i. -/
def prevValidIdx (xs : List (Option ℚ)) (i : Nat) : Option Nat :=
  ((List.range xs.length).filter (fun j => isValidAt xs j && decide (j < i))).getLast?

/-- Nearest present position strictly after i. -/
def nextValidIdx (xs : List (Option ℚ)) (i : Nat) : Option Nat :=
  ((List.range xs.length).filter (fun j => isValidAt xs j && decide (i < j))).head?

/-- numpy interp at a missing position: linear between the surrounding
present values, clamped to the boundary value outside the known range.  The
both-none branch is unreachable for positions that pass the fill test. -/
def npInterpAt (xs : List (Option ℚ)) (i : Nat) : ℚ :=
  match prevValidIdx xs i, nextValidIdx xs i with
  | none, none => 0
  | none, some nv => valueAt xs nv
  | some pv, none => valueAt xs pv
  | some pv, some nv =>
      valueAt xs pv +
        (valueAt xs nv - valueAt xs pv) * ((i : ℚ) - (pv : ℚ)) / ((nv : ℚ) - (pv : ℚ))

/-- The fill test of interpolate with limit_direction both: a missing
position is filled exactly when a present position lies within limit places
before it or within limit places after it. -/
def filledAt (xs : List (Option ℚ)) (maxGap : Nat) (i : Nat) : Bool :=
  !isValidAt xs i &&
  (List.range xs.length).any (fun j =>
    isValidAt xs j &&
    ((decide (j < i) && decide (i - j ≤ maxGap)) ||
     (decide (i < j) && decide (j - i ≤ maxGap))))

/-- numpy round(x, -1): ten times the half-to-even rounding of x/10, again
computed on the numerator and denominator (x/10 = num/(10*den)). -/
def round10 (q : ℚ) : Int :=
  let d : Int := 10 * (q.den : Int)
  let f : Int := Int.fdiv q.num d
  let rnum : Int := q.num - f * d
  10 * (if 2 * rnum < d then f
        else if d < 2 * rnum then f + 1
        else if f % 2 = 0 then f else f + 1)

/-- The anc_interpolated column: interpolate, round to tens, cast to
nullable Int64.  Present positions keep their (rounded) value. -/
def interpColumn (xs : List (Option ℚ)) (maxGap : Nat) : List (Option Int) :=
  (List.range xs.length).map (fun i =>
    if isValidAt xs i then some (round10 (valueAt xs i))
    else if filledAt xs maxGap i then some (round10 (npInterpAt xs i))
    else none)

/-- The anc_final column: anc.fillna(anc_interpolated). -/
def ancFinalColumn (xs : List (Option ℚ)) (maxGap : Nat) : List (Option ℚ) :=
  (List.range xs.length).map (fun i =>
    match xs.getD i none with
    | some v => some v
    | none => ((interpColumn xs maxGap).getD i none).map (fun z => (z : ℚ)))

/-- Comparator for sort_values on time_post_inf over grouped early rows. -/
def earlyRowLE (a b : EarlyRow) : Bool := a.time_post_inf ≤ b.time_post_inf

/-- The per-patient body of _interpolate_anc_values: sort by day, compute the
interpolated and final columns positionally, and extend each row. -/
def interpolatePatient (rows : List EarlyRow) (maxGap : Nat) : List FinalRow :=
  let sorted := sortByB earlyRowLE rows
  let xs := sorted.map (·.anc)
  let interp := interpColumn xs maxGap
  let final := ancFinalColumn xs maxGap
  (List.range sorted.length).filterMap (fun i =>
    (sorted.get? i).map (fun r =>
      { patient_id := r.patient_id, time_post_inf := r.time_post_inf,
        cart_date := r.cart_date, date := r.date, anc := r.anc,
        last_fu_date := r.last_fu_date,
        anc_interpolated := interp.getD i none, anc_final := final.getD i none }))

/-- DataProcessor._interpolate_anc_values.  On an empty frame the patient
loop contributes nothing and the final pd.concat of zero frames raises
ValueError (an empty frame would already fail the patient_id column access);
the error value models that abort. -/
def interpolateAncValues (df : List EarlyRow) (maxGap : Nat) : Except String (List FinalRow) :=
  if df.isEmpty then Except.error "ValueError: No objects to concatenate"
  else Except.ok ((uniqueFirst (df.map (·.patient_id))).flatMap (fun pid =>
    interpolatePatient (df.filter (fun r => r.patient_id == pid)) maxGap))

/-- _prepare_early_data as a function of the two settings values it reads. -/
def prepareEarlyCore (max_days : Int) (maxGap : Nat) (df : List RawRow) :
    Except String (List FinalRow) :=
  interpolateAncValues (createCompleteTimeseries (groupEarly (df.filter (keepEarly max_days))) max_days) maxGap

/-- DataProcessor._prepare_early_data. -/
def prepareEarlyData (df : List RawRow) (settings : Settings) : Except String (List FinalRow) :=
  prepareEarlyCore (earlyDaysVal settings) (maxGapVal settings) df

/-- DataProcessor.prepare_data, returning the early and late frames. -/
def prepareData (df : List RawRow) (settings : Settings) :
    Except String (List FinalRow × List LateRow) :=
  (prepareEarlyData df settings).map (fun e => (e, prepareLateData df settings))

/-- The full core transform as run by the /api/process route: prepare, grade
both windows, combine relative to the set enumeration order of the run, and
summarize. -/
def runPipeline (df : List RawRow) (settings : Settings) (order : List String) :
    Except String (List CombinedResult × Option Summary) := do
  let prepared ← prepareData df settings
  let early_grades := gradeEarlyIcaht prepared.1
  let late_grades := gradeLateIcaht prepared.2
  let final ← combineGrades early_grades late_grades order
  pure (final, generateSummary final prepared.1 prepared.2)

/-- Modelled from the spec: the late-grade band table over the lowest value
anc_1 alone. -/
def specBandGrade (x : ℚ) : String :=
  if 1500 < x then "Grade 0"
  else if 1000 < x then "Grade 1"
  else if 500 < x then "Grade 2"
  else if 100 < x then "Grade 3"
  else "Grade 4"

/-! ### Concrete inputs used by the theorems -/

/-- A raw observation at day 45 with all event dates placed after it; under
the specified end date (last follow-up, day 200) it belongs to the late
window. -/
def c1row : RawRow :=
  { patient_id := "P1", cart_date := some 0, date := some 45, anc := some 800,
    last_fu_date := some 200, subsequent_therapy_date := none, progression_date := none }

/-- A raw observation of the same patient inside the early window, so that
the early preparation succeeds. -/
def c2row : RawRow :=
  { patient_id := "P1", cart_date := some 0, date := some 2, anc := some 300,
    last_fu_date := some 200, subsequent_therapy_date := none, progression_date := none }

/-- One fully observed raw row of the merge-boundary patient. -/
def mkObs (day : Int) (v : ℚ) : RawRow :=
  { patient_id := "P1", cart_date := some 0, date := some day, anc := some v,
    last_fu_date := some 12, subsequent_therapy_date := none, progression_date := none }

/-- A patient observed on every day 0..12: at or below 500 on days 0-4,
recovered on days 5-8 (four good days), at or below 500 again on days 9-12. -/
def obsRows : List RawRow :=
  [mkObs 0 300, mkObs 1 300, mkObs 2 300, mkObs 3 300, mkObs 4 300,
   mkObs 5 600, mkObs 6 600, mkObs 7 600, mkObs 8 600,
   mkObs 9 300, mkObs 10 300, mkObs 11 300, mkObs 12 300]

/-- An early grading result for patient A (content irrelevant). -/
def egA : EarlyResult :=
  { patient_id := "A", duration_below_500_max := 0, duration_below_100_max := 0,
    early_icaht_grade := "Grade 0", grade_4_special := false,
    exceedances_500 := 0, exceedances_100 := 0 }

/-- An early grading result for patient B. -/
def egB : EarlyResult := { egA with patient_id := "B" }

/-- A late grading result for patient A. -/
def lgA : LateResult :=
  { patient_id := "A", anc_1 := none, anc_2 := none,
    late_icaht_grade := "Grade 0", anc_count := 0 }

/-- The combined record produced for patient A from egA/lgA. -/
def cmbA : CombinedResult :=
  { patient_id := "A", early_icaht_grade := "Grade 0", duration_below_500_max := 0,
    duration_below_100_max := 0, grade_4_special := false, late_icaht_grade := "Grade 0",
    anc_1 := none, anc_2 := none, anc_count := 0 }

/-- The combined record produced for patient B: no late row, so late
defaults. -/
def cmbB : CombinedResult := { cmbA with patient_id := "B" }

/-- One early-window grouped row with the given day and raw ANC. -/
def mkEarlyRow (day : Int) (v : Option ℚ) : EarlyRow :=
  { patient_id := "P1", time_post_inf := day, cart_date := some 0, date := some day,
    anc := v, last_fu_date := some 30 }

/-- Twelve consecutive days whose interior gap of ten days separates known
values 400 and 600. -/
def gapRows : List EarlyRow :=
  [mkEarlyRow 0 (some 400), mkEarlyRow 1 none, mkEarlyRow 2 none, mkEarlyRow 3 none,
   mkEarlyRow 4 none, mkEarlyRow 5 none, mkEarlyRow 6 none, mkEarlyRow 7 none,
   mkEarlyRow 8 none, mkEarlyRow 9 none, mkEarlyRow 10 none, mkEarlyRow 11 (some 600)]

/-! ### Helper lemmas -/

theorem mem_insSorted {α : Type} (le : α → α → Bool) (a x : α) (l : List α) :
    a ∈ insSorted le x l ↔ a = x ∨ a ∈ l := by
  induction l with
  | nil => simp [insSorted]
  | cons b bs ih =>
      simp only [insSorted]
      split
      · simp [List.mem_cons]
      · simp only [List.mem_cons, ih]
        tauto

theorem mem_sortByB {α : Type} (le : α → α → Bool) (a : α) (l : List α) :
    a ∈ sortByB le l ↔ a ∈ l := by
  induction l with
  | nil => simp [sortByB]
  | cons b bs ih => simp [sortByB, mem_insSorted, ih]

theorem getD_map_range {β : Type} (n i : Nat) (f : Nat → β) (d : β) (h : i < n) :
    ((List.range n).map f).getD i d = f i := by
  simp [List.getD_eq_getElem?_getD, List.getElem?_map, List.getElem?_range, h]

/-! ### Claims -/

/-- C4: in the merge pass over the raw exceedance intervals, the next
interval is joined into the current one exactly when the gap
start(next) - end(cur) - 1 is strictly below the recovery threshold of 3
days, recomputing the merged end and the duration end - start + 1; the
intervals [0,4] and [7,9] separated by 2 good days merge into [0,9] of
duration 10, while [0,4] and [8,10] separated by 3 good days stay apart. -/
theorem C4_merge_rule :
    (∀ (cur next : Exceedance) (rest : List Exceedance),
        joinGo cur (next :: rest) =
          if next.start_day - cur.end_day - 1 < recovery_days then
            joinGo { cur with end_day := next.end_day, end_date := next.end_date,
                              duration := next.end_day - cur.start_day + 1 } rest
          else cur :: joinGo next rest) ∧
    joinAdjacentExceedances
        [{ start_day := 0, start_date := some 100, end_day := 4, end_date := some 104, duration := 5 },
         { start_day := 7, start_date := some 107, end_day := 9, end_date := some 109, duration := 3 }] =
      [{ start_day := 0, start_date := some 100, end_day := 9, end_date := some 109, duration := 10 }] ∧
    joinAdjacentExceedances
        [{ start_day := 0, start_date := some 100, end_day := 4, end_date := some 104, duration := 5 },
         { start_day := 8, start_date := some 108, end_day := 10, end_date := some 110, duration := 3 }] =
      [{ start_day := 0, start_date := some 100, end_day := 4, end_date := some 104, duration := 5 },
       { start_day := 8, start_date := some 108, end_day := 10, end_date := some 110, duration := 3 }] := by
  refine ⟨?_, by decide, by decide⟩
  intro cur next rest
  simp only [joinGo, recovery_days]
  split_ifs with h1 h2 <;> first | rfl | omega

/-- C10: a patient whose early series has an absent final ANC on every day
grades without failure to zero durations, zero exceedance counts and
Grade 0. -/
theorem C10_all_absent (rows : List FinalRow) (pid : String)
    (h : ∀ r ∈ rows, r.anc_final = none) :
    gradeEarlyPatient pid rows =
      { patient_id := pid, duration_below_500_max := 0, duration_below_100_max := 0,
        early_icaht_grade := "Grade 0", grade_4_special := false,
        exceedances_500 := 0, exceedances_100 := 0 } := by
  have hval : (sortByB rowLE (rows.filter (fun r => r.patient_id == pid))).filter
      (fun r => r.anc_final.isSome) = [] := by
    rw [List.filter_eq_nil]
    intro r hr
    have hr2 : r ∈ rows := List.mem_of_mem_filter ((mem_sortByB _ _ _).mp hr)
    simp [h r hr2]
  simp only [gradeEarlyPatient, calculateExceedances]
  rw [hval]
  rfl

/-- Witness for C10. -/
theorem C10_witness :
    gradeEarlyPatient "P1"
        [{ patient_id := "P1", time_post_inf := 0, cart_date := some 0, date := some 0,
           anc := none, last_fu_date := none, anc_interpolated := none, anc_final := none },
         { patient_id := "P1", time_post_inf := 1, cart_date := some 0, date := some 1,
           anc := none, last_fu_date := none, anc_interpolated := none, anc_final := none }] =
      { patient_id := "P1", duration_below_500_max := 0, duration_below_100_max := 0,
        early_icaht_grade := "Grade 0", grade_4_special := false,
        exceedances_500 := 0, exceedances_100 := 0 } :=
  C10_all_absent _ _ (by decide)

/-- C5: the grade-4 special flag is set exactly when some merged interval of
the 500 threshold starts on or before day 3 and ends on the last day that has
a present final ANC value, and a set flag forces Grade 4 for every pair of
durations. -/
theorem C5_grade4_special (rows : List FinalRow) :
    (checkGrade4SpecialCases rows (calculateExceedances rows anc_500_threshold) = true ↔
      ∃ e ∈ calculateExceedances rows anc_500_threshold,
        e.start_day ≤ 3 ∧
          ((rows.filter (fun r => r.anc_final.isSome)).getLast?).map (·.time_post_inf) =
            some e.end_day) ∧
    (∀ d500 d100 : Int, assignEarlyGrade d500 d100 true = "Grade 4") := by
  constructor
  · unfold checkGrade4SpecialCases
    split
    · next hE =>
        rw [List.isEmpty_iff] at hE
        simp [calculateExceedances] at hE ⊢
        simp [hE]
    · next hE =>
        unfold calculateExceedances at *
        split
        · next hnone => simp [hnone]
        · next last hlast =>
            rw [List.any_eq_true]
            simp only [hlast, Bool.and_eq_true, decide_eq_true_eq, beq_iff_eq,
              Option.map_some, Option.map_some', Option.some.injEq]
            constructor
            · rintro ⟨e, he, h1, h2⟩
              exact ⟨e, he, h1, h2.symm⟩
            · rintro ⟨e, he, h1, h2⟩
              exact ⟨e, he, h1, h2.symm⟩
  · intro d500 d100
    rfl

/-- C6 counterexample: a late-window patient whose two lowest ANC values are
1200 and 1600 receives Grade 0 from the code, not the Grade 1 demanded by
the band of anc_1 = 1200 alone: the secondary condition anc_2 <= 1500 fails
and every branch falls through. -/
theorem C6_counterexample :
    (gradeLateIcaht
        [{ patient_id := "P1", time_post_inf := 40, cart_date := some 0, date := some 40,
           anc := some 1200, end_date := some 100 },
         { patient_id := "P1", time_post_inf := 50, cart_date := some 0, date := some 50,
           anc := some 1600, end_date := some 100 }]).map (·.late_icaht_grade) = ["Grade 0"] ∧
    "Grade 0" ≠ "Grade 1" := by
  refine ⟨by decide, by decide⟩

/-- C6 as amended: for a whole-number anc_1, provided anc_2 is absent or at
most 1500, the assigned late grade is the band of anc_1 alone. -/
theorem C6_band_amended (n : Int) (a2 : Option ℚ)
    (h2 : a2 = none ∨ ∃ v, a2 = some v ∧ v ≤ 1500) :
    assignLateGrade (some (n : ℚ)) a2 = specBandGrade (n : ℚ) := by
  have hden : ((n : ℚ)).den = 1 := Rat.den_intCast n
  have hnum : ((n : ℚ)).num = n := Rat.num_intCast n
  have hpy : ∀ lo hi : Int, inPyRange (n : ℚ) lo hi = (decide (lo ≤ n) && decide (n < hi)) := by
    intro lo hi
    simp [inPyRange, hden, hnum]
  have h2b : (isNA a2 || optLE a2 1500) = true := by
    rcases h2 with h | ⟨v, rfl, hv⟩ <;> simp [isNA, optLE, *]
  have hlt : ∀ m : Int, ((m : ℚ) < (n : ℚ)) ↔ m < n := fun m => by exact_mod_cast Iff.rfl
  have hle : ∀ m : Int, ((n : ℚ) ≤ (m : ℚ)) ↔ n ≤ m := fun m => by exact_mod_cast Iff.rfl
  have c1500 : ((1500 : ℚ) < (n : ℚ)) ↔ 1500 < n := by exact_mod_cast Iff.rfl
  have c1000 : ((1000 : ℚ) < (n : ℚ)) ↔ 1000 < n := by exact_mod_cast Iff.rfl
  have c500 : ((500 : ℚ) < (n : ℚ)) ↔ 500 < n := by exact_mod_cast Iff.rfl
  have c100 : ((100 : ℚ) < (n : ℚ)) ↔ 100 < n := by exact_mod_cast Iff.rfl
  have d100 : ((n : ℚ) ≤ (100 : ℚ)) ↔ n ≤ 100 := by exact_mod_cast Iff.rfl
  have borS : ∀ x y : Bool, (x || (x && y)) = x := by decide
  unfold assignLateGrade specBandGrade
  simp only [hpy, h2b, Bool.and_true, borS, Bool.and_eq_true, decide_eq_true_eq,
    c1500, c1000, c500, c100, d100]
  split_ifs <;> first | rfl | omega

/-- Witness for C6: the three examples of the specification, all satisfying
the amended hypotheses. -/
theorem C6_witness :
    assignLateGrade (some ((90 : Int) : ℚ)) none = "Grade 4" ∧
    assignLateGrade (some ((1800 : Int) : ℚ)) none = "Grade 0" ∧
    assignLateGrade (some ((1200 : Int) : ℚ)) none = "Grade 1" := by
  refine ⟨?_, ?_, ?_⟩ <;> (rw [C6_band_amended _ _ (Or.inl rfl)]; rfl)

/-- The head of the four-column row-wise minimum bounds its result: if the
first cell is present, the minimum is present and no larger. -/
theorem minSkipNA_cons_le {α : Type} [LinearOrder α] (a : α) (l : List (Option α)) :
    ∃ b, minSkipNA (some a :: l) = some b ∧ b ≤ a := by
  unfold minSkipNA
  simp only [List.foldl_cons]
  induction l generalizing a with
  | nil => exact ⟨a, rfl, le_refl a⟩
  | cons v t ih =>
      simp only [List.foldl_cons]
      cases v with
      | none => exact ih a
      | some w =>
          obtain ⟨b, hb, hba⟩ := ih (min a w)
          exact ⟨b, hb, le_trans hba (min_le_left a w)⟩

/-- A row with a present baseline date never passes the late-window filter:
its end date is at most the baseline while a kept row needs a day offset of
at least 31. -/
theorem keepLate_eq_false_of_cart (r : RawRow) (h : r.cart_date.isSome = true) :
    keepLate r = false := by
  obtain ⟨c, hc⟩ := Option.isSome_iff_exists.mp h
  cases hd : r.date with
  | none => simp [keepLate, timePostInf, hd]
  | some d =>
      obtain ⟨m, hm, hmc⟩ :=
        minSkipNA_cons_le c [r.subsequent_therapy_date, r.progression_date, r.last_fu_date]
      have hend : codeLateEndDate r = some m := by
        unfold codeLateEndDate
        rw [hc, hm]
      simp only [keepLate, timePostInf, hd, hc, hend]
      by_cases h31 : (31 : Int) ≤ d - c
      · have hdm : ¬ d ≤ m := by omega
        simp [hdm]
      · simp [h31]

/-- C1: the code computes the late-window end date as the row-wise minimum
of cart_date, subsequent_therapy_date, progression_date and last_fu_date,
so the baseline date takes part in the minimum; for the day-45 observation
with follow-up day 200 the end date becomes the baseline (day 0) instead of
the specified day 200, the filter day offset >= 31 and date <= end date can
never hold, and the prepared late set is empty although the specified end
date would keep the row. -/
theorem C1_late_end_date_bug :
    codeLateEndDate c1row = some 0 ∧
    specLateEndDate c1row = some 200 ∧
    keepLate c1row = false ∧
    prepareLateData [c1row] {} = [] ∧
    ((timePostInf c1row).getD 0 ≥ 31 ∧ c1row.date.getD 0 ≤ (specLateEndDate c1row).getD 0) := by
  refine ⟨by decide, by decide, by decide, by decide, by decide, by decide⟩

/-- C2: whenever every observation row carries a present baseline date, the
prepared late-window set is empty; consequently grade_late_icaht returns a
result frame built from an empty record list, and combine_grades aborts with
KeyError on the missing patient_id column instead of emitting the per-patient
late defaults. -/
theorem C2_late_empty_then_crash :
    (∀ (rows : List RawRow) (s : Settings),
        (∀ r ∈ rows, r.cart_date.isSome = true) → prepareLateData rows s = []) ∧
    gradeLateIcaht (prepareLateData [c1row, c2row] {}) = [] ∧
    runPipeline [c1row, c2row] {} ["P1"] = Except.error "KeyError: patient_id" := by
  refine ⟨?_, by decide, ?_⟩
  · intro rows s h
    have hk : rows.filter keepLate = [] := by
      rw [List.filter_eq_nil]
      intro r hr
      simp [keepLate_eq_false_of_cart r (h r hr)]
    unfold prepareLateData
    rw [hk]
    rfl
  · rfl

/-- Witness for C2. -/
theorem C2_witness : prepareLateData [c1row] {} = [] :=
  C2_late_empty_then_crash.1 [c1row] {} (by decide)

/-- C9 counterexample: supplying recovery_days = 5 changes nothing — the
merge pass still uses the hard-coded threshold 3, so the two exceedances of
obsRows separated by four good days stay separate (count 2), although a
five-day recovery threshold would merge them into one. -/
theorem C9_counterexample :
    (prepareEarlyData obsRows { recovery_days := some 5 }).map gradeEarlyIcaht =
      (prepareEarlyData obsRows {}).map gradeEarlyIcaht ∧
    (prepareEarlyData obsRows { recovery_days := some 5 }).map
        (fun f => (gradeEarlyIcaht f).map (·.exceedances_500)) = Except.ok [2] := by
  exact ⟨rfl, rfl⟩

/-- C9 as amended: the pipeline output depends on the settings only through
early_days (default 30) and max_gap_days (default 7); those two do govern
their computations (the early window length and the interpolation bound),
while late_days, recovery_days and the two thresholds are ignored. -/
theorem C9_settings_amended :
    (∀ (rows : List RawRow) (s1 s2 : Settings) (order : List String),
        earlyDaysVal s1 = earlyDaysVal s2 → maxGapVal s1 = maxGapVal s2 →
        runPipeline rows s1 order = runPipeline rows s2 order) ∧
    (prepareEarlyData obsRows { early_days := some 5 }).map List.length = Except.ok 6 ∧
    (prepareEarlyData obsRows {}).map List.length = Except.ok 13 ∧
    (prepareEarlyData [c1row, c2row] { max_gap_days := some 1 }).map
        (fun f => (f.filter (fun r => r.anc_final.isSome)).length) = Except.ok 3 ∧
    (prepareEarlyData [c1row, c2row] {}).map
        (fun f => (f.filter (fun r => r.anc_final.isSome)).length) = Except.ok 10 := by
  refine ⟨?_, rfl, rfl, rfl, rfl⟩
  intro rows s1 s2 order h1 h2
  simp only [runPipeline, prepareData, prepareEarlyData, prepareLateData, h1, h2]

/-- Witness for C9: changing an ignored threshold leaves the run unchanged. -/
theorem C9_witness :
    runPipeline obsRows { anc_threshold_500 := some 300 } ["P1"] =
      runPipeline obsRows {} ["P1"] :=
  C9_settings_amended.1 obsRows { anc_threshold_500 := some 300 } {} ["P1"] rfl rfl

/-- The summary only depends on the multiset of combined records. -/
theorem generateSummary_perm (f1 f2 : List CombinedResult)
    (hp : f1.Perm f2) (ef : List FinalRow) (lf : List LateRow) :
    generateSummary f1 ef lf = generateSummary f2 ef lf := by
  have hlen : f1.length = f2.length := hp.length_eq
  have hemp : f1.isEmpty = f2.isEmpty := by
    cases f1 <;> cases f2 <;> simp_all
  unfold generateSummary
  rw [hemp]
  by_cases hE : f2.isEmpty
  · simp [hE]
  · simp only [hE, Bool.false_eq_true, if_false]
    cases hq : assessDataQualityLate lf with
    | none => rfl
    | some ql =>
        refine congrArg some ?_
        simp only [Summary.mk.injEq, and_true, true_and]
        refine ⟨hlen, ?_, ?_, ?_⟩
        · funext g
          exact (hp.map (·.early_icaht_grade)).count_eq g
        · funext g
          exact (hp.map (·.late_icaht_grade)).count_eq g
        · exact (hp.filter (fun r => r.grade_4_special)).length_eq

/-- C3 counterexample: with both result frames non-empty, two enumeration
orders that a python set over the id union may produce yield the same
records in different order, so byte-identical output including record order
is not a function of the input alone. -/
theorem C3_order_counterexample :
    admissibleOrder [egA, egB] [lgA] ["A", "B"] ∧
    admissibleOrder [egA, egB] [lgA] ["B", "A"] ∧
    combineGrades [egA, egB] [lgA] ["A", "B"] = Except.ok [cmbA, cmbB] ∧
    combineGrades [egA, egB] [lgA] ["B", "A"] = Except.ok [cmbB, cmbA] ∧
    cmbA ≠ cmbB := by
  refine ⟨?_, ?_, rfl, rfl, by decide⟩
  · unfold admissibleOrder
    decide
  · unfold admissibleOrder
    decide

/-- C3 as amended: relative to the enumeration order the transform is a pure
function; for two runs over enumeration orders that are permutations of one
another, the failure behavior is identical and successful outputs hold the
same combined records up to record order with an identical summary. -/
theorem C3_deterministic_up_to_order (eg : List EarlyResult) (lg : List LateResult)
    (ef : List FinalRow) (lf : List LateRow) (o1 o2 : List String)
    (h : o1.Perm o2) :
    (∀ msg, combineGrades eg lg o1 = Except.error msg ↔
        combineGrades eg lg o2 = Except.error msg) ∧
    (∀ f1 f2, combineGrades eg lg o1 = Except.ok f1 → combineGrades eg lg o2 = Except.ok f2 →
        f1.Perm f2 ∧ generateSummary f1 ef lf = generateSummary f2 ef lf) := by
  constructor
  · intro msg
    unfold combineGrades
    split_ifs <;> simp
  · intro f1 f2 h1 h2
    unfold combineGrades at h1 h2
    by_cases he : eg.isEmpty
    · rw [if_pos he] at h1
      exact absurd h1 (by simp)
    · rw [if_neg he] at h1 h2
      by_cases hl : lg.isEmpty
      · rw [if_pos hl] at h1
        exact absurd h1 (by simp)
      · rw [if_neg hl] at h1 h2
        have e1 : o1.map (combineOne eg lg) = f1 := by
          injection h1 with e
        have e2 : o2.map (combineOne eg lg) = f2 := by
          injection h2 with e
        subst e1
        subst e2
        have hmap : (o1.map (combineOne eg lg)).Perm (o2.map (combineOne eg lg)) :=
          h.map (combineOne eg lg)
        exact ⟨hmap, generateSummary_perm _ _ hmap ef lf⟩

/-- Witness for C3. -/
theorem C3_witness :
    ([cmbA, cmbB].Perm [cmbB, cmbA]) ∧
    generateSummary [cmbA, cmbB] [] [] = generateSummary [cmbB, cmbA] [] [] :=
  (C3_deterministic_up_to_order [egA, egB] [lgA] [] [] ["A", "B"] ["B", "A"]
      (by decide)).2 [cmbA, cmbB] [cmbB, cmbA] rfl rfl

/-- An invalid position holds none. -/
theorem isValidAt_false_getD (xs : List (Option ℚ)) (i : Nat)
    (h : isValidAt xs i = false) : xs.getD i none = none := by
  unfold isValidAt at h
  cases hx : xs.getD i none with
  | none => rfl
  | some v => rw [hx] at h; simp at h

/-- The fill test in existential form: a missing position is filled exactly
when some present position lies within the limit on one side. -/
theorem filledAt_eq_true_iff (xs : List (Option ℚ)) (g i : Nat) :
    filledAt xs g i = true ↔
      isValidAt xs i = false ∧
        ∃ j, j < xs.length ∧ isValidAt xs j = true ∧
          ((j < i ∧ i - j ≤ g) ∨ (i < j ∧ j - i ≤ g)) := by
  unfold filledAt
  simp only [Bool.and_eq_true, Bool.not_eq_true', List.any_eq_true, List.mem_range,
    Bool.or_eq_true, decide_eq_true_eq]

/-- C7 counterexample: ten consecutive missing days between known values on
days 0 and 11 are all filled by the interpolator with the default bound 7,
not left absent. -/
theorem C7_counterexample :
    (interpolatePatient gapRows 7).map (fun r => r.anc_final.isSome) =
      List.replicate 12 true ∧
    maxGapVal {} = 7 := by
  exact ⟨by decide, rfl⟩

/-- C7 as amended: inside a gap between the present values at positions p
and q (everything strictly between them missing), a position keeps an absent
final value exactly when it is farther than the bound from both ends; in
particular a gap of width at most twice the bound is filled completely. -/
theorem C7_gap_fill_characterization (xs : List (Option ℚ)) (g : Nat) (i p q : Nat)
    (hpi : p < i) (hiq : i < q) (hq : q < xs.length)
    (hpv : isValidAt xs p = true) (hqv : isValidAt xs q = true)
    (hmid : ∀ j, p < j → j < q → isValidAt xs j = false) :
    (ancFinalColumn xs g).getD i none = none ↔ (g + p < i ∧ i + g < q) := by
  have hilen : i < xs.length := lt_trans hiq hq
  have hiv : isValidAt xs i = false := hmid i hpi hiq
  have hxsi : xs.getD i none = none := isValidAt_false_getD xs i hiv
  have hfill_iff : filledAt xs g i = true ↔ (i - p ≤ g ∨ q - i ≤ g) := by
    rw [filledAt_eq_true_iff]
    constructor
    · rintro ⟨-, j, hjlen, hjv, ⟨hji, hdist⟩ | ⟨hij, hdist⟩⟩
      · left
        have hjp : j ≤ p := by
          by_contra hgt
          push_neg at hgt
          have hbad := hmid j hgt (lt_trans hji hiq)
          rw [hbad] at hjv
          simp at hjv
        omega
      · right
        have hjq : q ≤ j := by
          by_contra hgt
          push_neg at hgt
          have hbad := hmid j (lt_trans hpi hij) hgt
          rw [hbad] at hjv
          simp at hjv
        omega
    · rintro (hc | hc)
      · exact ⟨hiv, p, lt_trans (lt_trans hpi hiq) hq, hpv, Or.inl ⟨hpi, hc⟩⟩
      · exact ⟨hiv, q, hq, hqv, Or.inr ⟨hiq, hc⟩⟩
  rw [ancFinalColumn, getD_map_range _ _ _ _ hilen, hxsi, interpColumn,
      getD_map_range _ _ _ _ hilen, if_neg (by simp [hiv])]
  by_cases hf : filledAt xs g i = true
  · rw [if_pos hf]
    simp only [Option.map_some']
    have hd := hfill_iff.mp hf
    constructor
    · intro hc
      simp at hc
    · intro hc
      omega
  · rw [if_neg hf]
    simp only [Option.map_none']
    have hnd : ¬ (i - p ≤ g ∨ q - i ≤ g) := fun hc => hf (hfill_iff.mpr hc)
    constructor
    · intro _
      omega
    · intro _
      rfl

/-- Witness for C7: with bound 1, the middle of a three-wide gap stays
absent. -/
theorem C7_witness :
    (ancFinalColumn [some 100, none, none, none, some 200] 1).getD 2 none = none :=
  (C7_gap_fill_characterization [some 100, none, none, none, some 200] 1 2 0 4
    (by decide) (by decide) (by decide) (by decide) (by decide)
    (fun j h1 h2 => by
      have : j = 1 ∨ j = 2 ∨ j = 3 := by omega
      rcases this with rfl | rfl | rfl <;> decide)).mpr (by decide)

/-- C8 counterexample: the day strictly before the first known value is
filled with that value (clamped extrapolation), not left absent. -/
theorem C8_counterexample :
    (interpolatePatient [mkEarlyRow 0 none, mkEarlyRow 1 (some 500)] 7).map (·.anc_final) =
      [some 500, some 500] ∧
    ((interpolatePatient [mkEarlyRow 0 none, mkEarlyRow 1 (some 500)] 7).map
        (·.anc_final)).getD 0 none ≠ none := by
  exact ⟨by decide, by decide⟩

/-- C8 as amended: positions farther than the bound from every present value
stay absent, but a missing position before the first present value (or after
the last) within the bound is filled with that boundary value rounded to
tens. -/
theorem C8_extrapolation_behavior :
    (∀ (xs : List (Option ℚ)) (g i : Nat), i < xs.length →
        (∀ j, j < xs.length → isValidAt xs j = true → (i + g < j ∨ j + g < i)) →
        (ancFinalColumn xs g).getD i none = none) ∧
    (∀ (xs : List (Option ℚ)) (g i f : Nat),
        (∀ j, j ≤ i → isValidAt xs j = false) →
        nextValidIdx xs i = some f → f ≤ i + g →
        (ancFinalColumn xs g).getD i none = some ((round10 (valueAt xs f) : Int) : ℚ)) ∧
    (∀ (xs : List (Option ℚ)) (g i p : Nat), i < xs.length →
        (∀ j, i ≤ j → j < xs.length → isValidAt xs j = false) →
        prevValidIdx xs i = some p → i ≤ p + g →
        (ancFinalColumn xs g).getD i none = some ((round10 (valueAt xs p) : Int) : ℚ)) := by
  refine ⟨?_, ?_, ?_⟩
  · intro xs g i hi hfar
    have hiv : isValidAt xs i = false := by
      cases hx : isValidAt xs i
      · rfl
      · rcases hfar i hi hx with hc | hc <;> omega
    have hxsi : xs.getD i none = none := isValidAt_false_getD xs i hiv
    have hnf : filledAt xs g i = false := by
      cases hfb : filledAt xs g i
      · rfl
      · exfalso
        obtain ⟨-, j, hjl, hjv, hcase⟩ := (filledAt_eq_true_iff xs g i).mp hfb
        rcases hfar j hjl hjv with hc | hc <;>
          rcases hcase with ⟨h1, h2⟩ | ⟨h1, h2⟩ <;> omega
    rw [ancFinalColumn, getD_map_range _ _ _ _ hi, hxsi, interpColumn,
        getD_map_range _ _ _ _ hi, if_neg (by simp [hiv]), if_neg (by simp [hnf])]
    rfl
  · intro xs g i f hlow hnext hnear
    have hiv : isValidAt xs i = false := hlow i le_rfl
    have hxsi : xs.getD i none = none := isValidAt_false_getD xs i hiv
    have hfmem : f ∈ (List.range xs.length).filter
        (fun j => isValidAt xs j && decide (i < j)) := by
      refine List.mem_of_mem_head? ?_
      unfold nextValidIdx at hnext
      simp [hnext, Option.mem_def]
    have hff : f < xs.length ∧ isValidAt xs f = true ∧ i < f := by
      have := List.mem_filter.mp hfmem
      constructor
      · exact List.mem_range.mp this.1
      · have h2 := this.2
        simp only [Bool.and_eq_true, decide_eq_true_eq] at h2
        exact h2
    have hi : i < xs.length := lt_trans hff.2.2 hff.1
    have hprev : prevValidIdx xs i = none := by
      unfold prevValidIdx
      rw [List.getLast?_eq_none_iff]
      rw [List.filter_eq_nil]
      intro j hj
      simp only [Bool.and_eq_true, decide_eq_true_eq, not_and]
      intro hv hji
      rw [hlow j (le_of_lt hji)] at hv
      simp at hv
    have hfill : filledAt xs g i = true := by
      rw [filledAt_eq_true_iff]
      exact ⟨hiv, f, hff.1, hff.2.1, Or.inr ⟨hff.2.2, by omega⟩⟩
    have hnp : npInterpAt xs i = valueAt xs f := by
      unfold npInterpAt
      rw [hprev, hnext]
    rw [ancFinalColumn, getD_map_range _ _ _ _ hi, hxsi, interpColumn,
        getD_map_range _ _ _ _ hi, if_neg (by simp [hiv]), if_pos hfill, hnp]
    rfl
  · intro xs g i p hi hhigh hprev hnear
    have hiv : isValidAt xs i = false := hhigh i le_rfl hi
    have hxsi : xs.getD i none = none := isValidAt_false_getD xs i hiv
    have hpmem : p ∈ (List.range xs.length).filter
        (fun j => isValidAt xs j && decide (j < i)) := by
      refine List.mem_of_mem_getLast? ?_
      unfold prevValidIdx at hprev
      simp [hprev, Option.mem_def]
    have hpp : p < xs.length ∧ isValidAt xs p = true ∧ p < i := by
      have := List.mem_filter.mp hpmem
      constructor
      · exact List.mem_range.mp this.1
      · have h2 := this.2
        simp only [Bool.and_eq_true, decide_eq_true_eq] at h2
        exact h2
    have hnxt : nextValidIdx xs i = none := by
      unfold nextValidIdx
      rw [List.head?_eq_none_iff]
      rw [List.filter_eq_nil]
      intro j hj
      simp only [Bool.and_eq_true, decide_eq_true_eq, not_and]
      intro hv hij
      rw [hhigh j (le_of_lt hij) (List.mem_range.mp hj)] at hv
      simp at hv
    have hfill : filledAt xs g i = true := by
      rw [filledAt_eq_true_iff]
      exact ⟨hiv, p, hpp.1, hpp.2.1, Or.inl ⟨hpp.2.2, by omega⟩⟩
    have hnp : npInterpAt xs i = valueAt xs p := by
      unfold npInterpAt
      rw [hprev, hnxt]
    rw [ancFinalColumn, getD_map_range _ _ _ _ hi, hxsi, interpColumn,
        getD_map_range _ _ _ _ hi, if_neg (by simp [hiv]), if_pos hfill, hnp]
    rfl

/-- Witness for C8: a missing day farther than the bound from the only known
day stays absent. -/
theorem C8_witness :
    (ancFinalColumn [some 100, none, none, none] 1).getD 3 none = none :=
  C8_extrapolation_behavior.1 [some 100, none, none, none] 1 3 (by decide)
    (fun j hj hv => by
      have hj4 : j < 4 := by simpa using hj
      have : j = 0 ∨ j = 1 ∨ j = 2 ∨ j = 3 := by omega
      rcases this with rfl | rfl | rfl | rfl
      · right
        omega
      · exact absurd hv (by decide)
      · exact absurd hv (by decide)
      · exact absurd hv (by decide))
